import Mathlib

/-!
Shallow embedding of the advisor-bot availability engine and conversation
handlers from src/bot_Nirs.py, together with theorems settling the frozen
claims about it.  Python dicts are modelled as association lists in
insertion order, fallible code (exceptions) as Except, and the external
directory lookup as an Option-valued argument (none = transport failure).
-/

deriving instance DecidableEq for Except

/-- Apostrophe character, used inside several user-facing message templates. -/
def apos : String := String.singleton (Char.ofNat 39)

/-- Split a character list at every occurrence of a separator character.
This mirrors Python str.split with a one-character separator:
an empty input gives one empty group, and adjacent separators give empty groups. -/
def splitCharAux (sep : Char) : List Char → List (List Char)
  | [] => [[]]
  | c :: rest =>
    match splitCharAux sep rest with
    | [] => if c = sep then [[], []] else [[c]]
    | g :: gs => if c = sep then [] :: g :: gs else (c :: g) :: gs

/-- String version of Python str.split with a one-character separator. -/
def splitChar (sep : Char) (s : String) : List String :=
  (splitCharAux sep s.data).map String.mk

/-- ASCII decimal digit test (the digits accepted by strptime's directives). -/
def isAsciiDigit (c : Char) : Bool := 48 ≤ c.toNat && c.toNat ≤ 57

/-- Numeric value of a list of ASCII digits, most significant first. -/
def digitsVal (cs : List Char) : Nat := cs.foldl (fun n c => n * 10 + (c.toNat - 48)) 0

/-- Gregorian leap-year rule, as in Python's datetime module. -/
def isLeapYear (y : Nat) : Bool := y % 4 == 0 && (y % 100 != 0 || y % 400 == 0)

/-- Number of days in a month of the proleptic Gregorian calendar. -/
def daysInMonth (y m : Nat) : Nat :=
  if m = 2 then (if isLeapYear y then 29 else 28)
  else if m = 4 ∨ m = 6 ∨ m = 9 ∨ m = 11 then 30
  else 31

/-- Days in year y that precede month m (month 1 has 0 days before it). -/
def daysBeforeMonth (y m : Nat) : Nat :=
  let leap : Nat := if isLeapYear y then 1 else 0
  match m with
  | 1 => 0
  | 2 => 31
  | 3 => 59 + leap
  | 4 => 90 + leap
  | 5 => 120 + leap
  | 6 => 151 + leap
  | 7 => 181 + leap
  | 8 => 212 + leap
  | 9 => 243 + leap
  | 10 => 273 + leap
  | 11 => 304 + leap
  | _ => 334 + leap

/-- Proleptic Gregorian ordinal of a date, with 0001-01-01 having ordinal 1.
This is Python's datetime.date.toordinal. -/
def toOrdinal (y m d : Nat) : Nat :=
  365 * (y - 1) + (y - 1) / 4 - (y - 1) / 100 + (y - 1) / 400 + daysBeforeMonth y m + d

/-- Weekday index of a date with Monday = 0 and Sunday = 6, matching
Python's datetime.date.weekday (0001-01-01 is a Monday). -/
def weekdayNumber (y m d : Nat) : Nat := (toOrdinal y m d + 6) % 7

/-- Model of CPython's datetime.strptime(s, percent-Y-m-d): the year is exactly
four digits, month and day are one or two digits, the month is 1..12, the day
is 1 up to the month's length, the year is at least 1, and nothing else may
appear in the string.  Returns none exactly when strptime raises ValueError. -/
def parseDate (s : String) : Option (Nat × Nat × Nat) :=
  match splitCharAux (Char.ofNat 45) s.data with
  | [ys, ms, ds] =>
    if ys.length == 4 && ys.all isAsciiDigit
        && decide (1 ≤ ms.length) && decide (ms.length ≤ 2) && ms.all isAsciiDigit
        && decide (1 ≤ ds.length) && decide (ds.length ≤ 2) && ds.all isAsciiDigit then
      let y := digitsVal ys
      let m := digitsVal ms
      let d := digitsVal ds
      if 1 ≤ y ∧ 1 ≤ m ∧ m ≤ 12 ∧ 1 ≤ d ∧ d ≤ daysInMonth y m then some (y, m, d) else none
    else none
  | _ => none

/-- The WEEKDAYS dict of the source: weekday key to display name, in source order. -/
def WEEKDAYS : List (String × String) := [
  ("monday", "–ü–æ–Ω–µ–¥–µ–ª—å–Ω–∏–∫"),
  ("tuesday", "–í—Ç–æ—Ä–Ω–∏–∫"),
  ("wednesday", "–°—Ä–µ–¥–∞"),
  ("thursday", "–ß–µ—Ç–≤–µ—Ä–≥"),
  ("friday", "–ü—è—Ç–Ω–∏—Ü–∞"),
  ("saturday", "–°—É–±–±–æ—Ç–∞"),
  ("sunday", "–í–æ—Å–∫—Ä–µ—Å–µ–Ω—å–µ")]

/-- The WEEKDAYS_REVERSE dict: display name back to weekday key.  The source
builds it as a comprehension swapping each pair of WEEKDAYS; the display names
are pairwise distinct so no entry is overwritten. -/
def WEEKDAYS_REVERSE : List (String × String) := WEEKDAYS.map (fun p => (p.2, p.1))

/-- The WEEKDAY_NUMBERS dict: weekday index 0..6 to display name.  The source
dict has exactly the keys 0..6 and get_weekday only ever indexes it with
date.weekday(), which lies in 0..6, so the catch-all is unreachable. -/
def WEEKDAY_NUMBERS (n : Nat) : String :=
  match n with
  | 0 => "–ü–æ–Ω–µ–¥–µ–ª—å–Ω–∏–∫"
  | 1 => "–í—Ç–æ—Ä–Ω–∏–∫"
  | 2 => "–°—Ä–µ–¥–∞"
  | 3 => "–ß–µ—Ç–≤–µ—Ä–≥"
  | 4 => "–ü—è—Ç–Ω–∏—Ü–∞"
  | 5 => "–°—É–±–±–æ—Ç–∞"
  | 6 => "–í–æ—Å–∫—Ä–µ—Å–µ–Ω—å–µ"
  | _ => ""

/-- ASCII lower-casing of one character (Python str.lower restricted to the
ASCII range; the office-hours keys the source lowers are English weekday names). -/
def lowerChar (c : Char) : Char :=
  if 65 ≤ c.toNat ∧ c.toNat ≤ 90 then Char.ofNat (c.toNat + 32) else c

/-- ASCII lower-casing of a string, modelling day.lower() in the source. -/
def strLower (s : String) : String := String.mk (s.data.map lowerChar)

/-- Model of WEEKDAYS.get(k, dflt): dict lookup with a passthrough default. -/
def weekdaysGet (k dflt : String) : String := (WEEKDAYS.lookup k).getD dflt

/-- Zero-padded two-digit rendering of a number, Python format 02d for
the nonnegative values supplied by the callers. -/
def pad2 (n : Nat) : String := if n < 10 then "0" ++ toString n else toString n

/-- The date string built in filter_available_days:
year unpadded, month and day zero-padded to two digits. -/
def dateString (year month day : Nat) : String :=
  toString year ++ "-" ++ pad2 month ++ "-" ++ pad2 day

/-- Embeds get_weekday (source lines 115-118): parse the date string and return
the Russian display name of its weekday.  A malformed string makes strptime
raise ValueError naming the offending string, modelled as Except.error carrying
that string. -/
def get_weekday (date_str : String) : Except String String :=
  match parseDate date_str with
  | none => Except.error date_str
  | some (y, m, d) => Except.ok (WEEKDAY_NUMBERS (weekdayNumber y m d))

/-- Embeds get_consultation_days (source lines 121-127): translate every
office-hours key through WEEKDAYS.get(day.lower(), day). -/
def get_consultation_days (office_hours : List (String × String)) : List String :=
  office_hours.map (fun p => weekdaysGet (strLower p.1) p.1)

/-- Embeds filter_available_days (source lines 130-138): keep the days of the
month whose weekday display name is among the consultation days.  The Except
layer records that get_weekday raises on a day that does not form a valid
date, aborting the whole loop as the Python exception does. -/
def filter_available_days (days : List Nat) (year month : Nat)
    (consultation_days : List String) : Except String (List Nat) :=
  match days with
  | [] => Except.ok []
  | day :: rest =>
    match get_weekday (dateString year month day) with
    | Except.error e => Except.error e
    | Except.ok weekday =>
      match filter_available_days rest year month consultation_days with
      | Except.error e => Except.error e
      | Except.ok tail =>
        Except.ok (if weekday ∈ consultation_days then day :: tail else tail)

/-- Embeds the busy-slot filtering loop of format_calendar (source lines
176-181): keep the busy_slots entries whose date's weekday display name is
among the consultation days; a date that strptime rejects raises, aborting
the loop. -/
def filterBusySlots (busy_slots : List (String × List String))
    (consultation_days : List String) : Except String (List (String × List String)) :=
  match busy_slots with
  | [] => Except.ok []
  | (date, slots) :: rest =>
    match get_weekday date with
    | Except.error e => Except.error e
    | Except.ok weekday =>
      match filterBusySlots rest consultation_days with
      | Except.error e => Except.error e
      | Except.ok tail =>
        Except.ok (if weekday ∈ consultation_days then (date, slots) :: tail else tail)

/-- Stable insertion of an element into a list sorted by a boolean order. -/
def insertSorted (le : α → α → Bool) (x : α) : List α → List α
  | [] => [x]
  | y :: ys => if le x y then x :: y :: ys else y :: insertSorted le x ys

/-- Stable insertion sort.  Python's sorted() is a stable sort, and any two
stable sorts of the same list under the same total order coincide, so this
models sorted() extensionally. -/
def sortBy (le : α → α → Bool) : List α → List α
  | [] => []
  | x :: xs => insertSorted le x (sortBy le xs)

/-- Numeric order as a boolean, for sorted() over day numbers. -/
def natLeB (a b : Nat) : Bool := Nat.ble a b

/-- Lexicographic order on character lists by code point, the order Python
uses to compare strings. -/
def charListLe : List Char → List Char → Bool
  | [], _ => true
  | _ :: _, [] => false
  | a :: as, b :: bs =>
    if a.toNat = b.toNat then charListLe as bs else Nat.blt a.toNat b.toNat

/-- String order by code points, for sorted() over date strings and fields. -/
def strLeB (a b : String) : Bool := charListLe a.data b.data

/-- Python sep.join over a list of strings. -/
def joinSep (sep : String) : List String → String
  | [] => ""
  | [x] => x
  | x :: xs => x ++ sep ++ joinSep sep xs

/-- The genitive month names of format_date (source lines 107-111). -/
def monthNameGen (m : Nat) : String :=
  match m with
  | 1 => "—è–Ω–≤–∞—Ä—è"
  | 2 => "—Ñ–µ–≤—Ä–∞–ª—è"
  | 3 => "–º–∞—Ä—Ç–∞"
  | 4 => "–∞–ø—Ä–µ–ª—è"
  | 5 => "–º–∞—è"
  | 6 => "–∏—é–Ω—è"
  | 7 => "–∏—é–ª—è"
  | 8 => "–∞–≤–≥—É—Å—Ç–∞"
  | 9 => "—Å–µ–Ω—Ç—è–±—Ä—è"
  | 10 => "–æ–∫—Ç—è–±—Ä—è"
  | 11 => "–Ω–æ—è–±—Ä—è"
  | _ => "–¥–µ–∫–∞–±—Ä—è"

/-- The nominative month names of format_calendar (source lines 165-169). -/
def monthNameNom (m : Nat) : String :=
  match m with
  | 1 => "–Ø–Ω–≤–∞—Ä—å"
  | 2 => "–§–µ–≤—Ä–∞–ª—å"
  | 3 => "–ú–∞—Ä—Ç"
  | 4 => "–ê–ø—Ä–µ–ª—å"
  | 5 => "–ú–∞–π"
  | 6 => "–ò—é–Ω—å"
  | 7 => "–ò—é–ª—å"
  | 8 => "–ê–≤–≥—É—Å—Ç"
  | 9 => "–°–µ–Ω—Ç—è–±—Ä—å"
  | 10 => "–û–∫—Ç—è–±—Ä—å"
  | 11 => "–ù–æ—è–±—Ä—å"
  | _ => "–î–µ–∫–∞–±—Ä—å"

/-- Embeds format_date (source lines 104-112): a parse failure raises
ValueError naming the string; month is 1..12 after parsing, so the
dict lookup months[date_obj.month] is total. -/
def format_date (date_str : String) : Except String String :=
  match parseDate date_str with
  | none => Except.error date_str
  | some (y, m, d) => Except.ok (toString d ++ " " ++ monthNameGen m ++ " " ++ toString y)

/-- A month record: the dict stored under a month key of an advisor's
calendar.  Each field is none when the corresponding dict key is absent
(the source reads both through dict.get with a default).  The record models
a dict whose only possible keys are these two, so Python's emptiness test
on the dict holds exactly when both fields are none. -/
structure MonthRecord where
  available_days : Option (List Nat)
  busy_slots : Option (List (String × List String))
deriving DecidableEq

/-- An advisor record as fetched from the directory.  The capacity limits are
integers; office_hours maps weekday keys to free-text hours; calendar maps
month keys to month records, with a missing or empty calendar modelled as the
empty list (the source reads it as advisor.get(calendar, and-empty-dict)). -/
structure Advisor where
  id : String
  last_name : String
  research_field : String
  email : String
  phone : String
  bachelors_limit : Int
  masters_limit : Int
  phd_limit : Int
  office_hours : List (String × String)
  calendar : List (String × MonthRecord)
deriving DecidableEq

/-- The strftime Y-m key of the month datetime.now() falls in; the source
then recovers (year, month) from it with map(int, split).  The bot runs in
four-digit years, for which the round trip is the identity, so the model
passes (year, month) directly and renders the key with an unpadded year and
a zero-padded month. -/
def monthKey (year month : Nat) : String := toString year ++ "-" ++ pad2 month

/-- Per-date output lines of format_calendar (source lines 184-187): the kept
busy dates in sorted order, each rendered through format_date with its
comma-joined slots.  format_date cannot fail here because every kept date
already parsed inside the filtering loop, but the model keeps the Except
layer of the source's exception flow. -/
def renderBusyLines (filtered : List (String × List String)) : List String → Except String String
  | [] => Except.ok ""
  | date :: rest =>
    match format_date date with
    | Except.error e => Except.error e
    | Except.ok fdate =>
      match renderBusyLines filtered rest with
      | Except.error e => Except.error e
      | Except.ok tail =>
        Except.ok (fdate ++ ": " ++ joinSep ", " ((filtered.lookup date).getD []) ++ "\n" ++ tail)

/-- Embeds format_calendar (source lines 141-189).  The month the report is
for is whatever month datetime.now() falls in; that clock reading is the
explicit argument now = (year, month) here.  Returns Except.error when the
ValueError raised on a malformed date propagates out, as in the source,
which has no handler for it. -/
def format_calendar (calendar_data : List (String × MonthRecord)) (advisor : Advisor)
    (now : Nat × Nat) : Except String String :=
  if calendar_data.isEmpty then Except.ok "–ö–∞–ª–µ–Ω–¥–∞—Ä—å –Ω–µ –¥–æ—Å—Ç—É–ø–µ–Ω"
  else
    let month_data := (calendar_data.lookup (monthKey now.1 now.2)).getD ⟨none, none⟩
    if month_data.available_days.isNone && month_data.busy_slots.isNone then
      Except.ok "–ù–µ—Ç –¥–∞–Ω–Ω—ã—Ö –æ —Ä–∞—Å–ø–∏—Å–∞–Ω–∏–∏ –Ω–∞ —Ç–µ–∫—É—â–∏–π –º–µ—Å—è—Ü"
    else
      let year := now.1
      let month := now.2
      let consultation_days := get_consultation_days advisor.office_hours
      match filter_available_days (month_data.available_days.getD []) year month consultation_days with
      | Except.error e => Except.error e
      | Except.ok filtered_days =>
        match filterBusySlots (month_data.busy_slots.getD []) consultation_days with
        | Except.error e => Except.error e
        | Except.ok filtered_busy =>
          match renderBusyLines filtered_busy (sortBy strLeB (filtered_busy.map Prod.fst)) with
          | Except.error e => Except.error e
          | Except.ok busyText =>
            Except.ok ("üìÖ –†–∞—Å–ø–∏—Å–∞–Ω–∏–µ –Ω–∞ " ++ monthNameNom month ++ " " ++ toString year
              ++ ":\n\n"
              ++ "–î–æ—Å—Ç—É–ø–Ω—ã–µ –¥–Ω–∏: "
              ++ joinSep ", " ((sortBy natLeB filtered_days).map toString) ++ "\n\n"
              ++ "–ó–∞–Ω—è—Ç—ã–µ —Å–ª–æ—Ç—ã:\n" ++ busyText)

/-- Office-hours lines of format_advisor_basic_info (source lines 203-206). -/
def officeHoursLines : List (String × String) → String
  | [] => ""
  | (day, hours) :: rest =>
    "   - " ++ weekdaysGet (strLower day) day ++ ": " ++ hours ++ "\n" ++ officeHoursLines rest

/-- Embeds format_advisor_basic_info (source lines 192-207). -/
def format_advisor_basic_info (advisor : Advisor) : String :=
  "üë§ *" ++ advisor.last_name ++ "*\n"
  ++ "üìö –ù–∞–ø—Ä–∞–≤–ª–µ–Ω–∏–µ: " ++ advisor.research_field ++ "\n"
  ++ "üìß Email: " ++ advisor.email ++ "\n"
  ++ "üìû –¢–µ–ª–µ—Ñ–æ–Ω: " ++ advisor.phone ++ "\n"
  ++ "üë• –õ–∏–º–∏—Ç—ã —Å—Ç—É–¥–µ–Ω—Ç–æ–≤:\n"
  ++ "   - –ë–∞–∫–∞–ª–∞–≤—Ä–∏–∞—Ç: " ++ toString advisor.bachelors_limit ++ "\n"
  ++ "   - –ú–∞–≥–∏—Å—Ç—Ä–∞—Ç—É—Ä–∞: " ++ toString advisor.masters_limit ++ "\n"
  ++ "   - –ê—Å–ø–∏—Ä–∞–Ω—Ç—É—Ä–∞: " ++ toString advisor.phd_limit ++ "\n"
  ++ "üïí –ß–∞—Å—ã –∫–æ–Ω—Å—É–ª—å—Ç–∞—Ü–∏–π:\n"
  ++ officeHoursLines advisor.office_hours

/-- Embeds format_advisor_schedule (source lines 210-214); the ValueError of
format_calendar propagates. -/
def format_advisor_schedule (advisor : Advisor) (now : Nat × Nat) : Except String String :=
  match format_calendar advisor.calendar advisor now with
  | Except.error e => Except.error e
  | Except.ok cal =>
    Except.ok ("üìÖ –†–∞—Å–ø–∏—Å–∞–Ω–∏–µ –Ω–∞—É—á–Ω–æ–≥–æ —Ä—É–∫–æ–≤–æ–¥–∏—Ç–µ–ª—è *" ++ advisor.last_name
      ++ "*:\n\n" ++ cal)

/-- Per-user session state held in context.user_data: the token-to-field dict
stored under the fields key (none when that key was never created) and the
expecting_search flag (user_data.get of an absent key is falsy, so absent is
modelled as false). -/
structure Session where
  fieldTokens : Option (List (String × String))
  expectingSearch : Bool
deriving DecidableEq

/-- Dict assignment d[k] = v on an insertion-ordered association list:
an existing key keeps its position and gets the new value, a new key is
appended at the end, exactly as for a Python dict. -/
def dictInsert : List (String × String) → String → String → List (String × String)
  | [], k, v => [(k, v)]
  | (k0, v0) :: rest, k, v =>
    if k0 = k then (k, v) :: rest else (k0, v0) :: dictInsert rest k v

/-- The token-assignment loop of list_advisors (source lines 246-255): for
each field, indexed from i upward, store the field under the stringified
index in the existing dict.  The source never clears the dict first; it only
assigns the indices of the current field list. -/
def storeFields (m : List (String × String)) (i : Nat) : List String → List (String × String)
  | [] => m
  | f :: rest => storeFields (dictInsert m (toString i) f) (i + 1) rest

/-- Embeds get_unique_research_fields (source lines 91-101): sorted distinct
research fields of the fetched advisors; a lookup failure (None) and an empty
directory both give the empty list.  The fields are mandatory in the record
model, so the except-branch of the source that returns the empty list on a
missing key has nothing left to model. -/
def get_unique_research_fields (fetched : Option (List Advisor)) : List String :=
  match fetched with
  | none => []
  | some advisors =>
    if advisors.isEmpty then []
    else sortBy strLeB ((advisors.map (·.research_field)).dedup)

/-- Token resolution of show_advisors_by_field (source lines 273-278):
the fields dict must exist and contain the token. -/
def resolveToken (s : Session) (tok : String) : Option String :=
  match s.fieldTokens with
  | none => none
  | some m => m.lookup tok

/-- Embeds the list_advisors handler (source lines 233-265), parameterized by
the directory fetch outcome (none = transport failure).  Returns the texts
of the replies sent and the session after the handler. -/
def list_advisors (fetched : Option (List Advisor)) (s : Session) : List String × Session :=
  let fields := get_unique_research_fields fetched
  if fields.isEmpty then
    (["–ö —Å–æ–∂–∞–ª–µ–Ω–∏—é, –Ω–µ —É–¥–∞–ª–æ—Å—å –ø–æ–ª—É—á–∏—Ç—å —Å–ø–∏—Å–æ–∫ –Ω–∞–ø—Ä–∞–≤–ª–µ–Ω–∏–π –∏—Å—Å–ª–µ–¥–æ–≤–∞–Ω–∏–π."], s)
  else
    (["–í—ã–±–µ—Ä–∏—Ç–µ –Ω–∞–ø—Ä–∞–≤–ª–µ–Ω–∏–µ –∏—Å—Å–ª–µ–¥–æ–≤–∞–Ω–∏–π:"],
      { s with fieldTokens := some (storeFields (s.fieldTokens.getD []) 0 fields) })

/-- Embeds the show_advisors_by_field handler (source lines 268-311): resolve
the token from the callback data, then list the advisors the directory
returns for that field.  A transport failure (None) and an empty result list
take the same branch of the source and produce the same reply. -/
def show_advisors_by_field (data : String) (fetched : Option (List Advisor))
    (s : Session) : List String × Session :=
  let field_id := (splitChar (Char.ofNat 95) data).getD 1 ""
  match resolveToken s field_id with
  | none => (["–ü—Ä–æ–∏–∑–æ—à–ª–∞ –æ—à–∏–±–∫–∞. –ü–æ–∂–∞–ª—É–π—Å—Ç–∞, –Ω–∞—á–Ω–∏—Ç–µ —Å–Ω–∞—á–∞–ª–∞."], s)
  | some field =>
    match fetched with
    | none =>
      (["–ù–∞—É—á–Ω—ã—Ö —Ä—É–∫–æ–≤–æ–¥–∏—Ç–µ–ª–µ–π –ø–æ –Ω–∞–ø—Ä–∞–≤–ª–µ–Ω–∏—é " ++ apos ++ field ++ apos
        ++ " –Ω–µ –Ω–∞–π–¥–µ–Ω–æ."], s)
    | some advisors =>
      if advisors.isEmpty then
        (["–ù–∞—É—á–Ω—ã—Ö —Ä—É–∫–æ–≤–æ–¥–∏—Ç–µ–ª–µ–π –ø–æ –Ω–∞–ø—Ä–∞–≤–ª–µ–Ω–∏—é " ++ apos ++ field ++ apos
          ++ " –Ω–µ –Ω–∞–π–¥–µ–Ω–æ."], s)
      else
        (("üìã –°–ø–∏—Å–æ–∫ –Ω–∞—É—á–Ω—ã—Ö —Ä—É–∫–æ–≤–æ–¥–∏—Ç–µ–ª–µ–π –ø–æ –Ω–∞–ø—Ä–∞–≤–ª–µ–Ω–∏—é " ++ apos ++ field
          ++ apos ++ ":") :: advisors.map format_advisor_basic_info, s)

/-- Embeds the show_schedule handler (source lines 314-342), parameterized by
the full-directory fetch outcome and the clock month.  Except.error models the
uncaught ValueError propagating out of format_calendar: the handler sends no
reply in that case.  The session is never touched by this handler. -/
def show_schedule (data : String) (fetched : Option (List Advisor))
    (now : Nat × Nat) : Except String (List String) :=
  let advisor_id := (splitChar (Char.ofNat 95) data).getD 1 ""
  match fetched with
  | none => Except.ok ["–ù–µ —É–¥–∞–ª–æ—Å—å –ø–æ–ª—É—á–∏—Ç—å –∏–Ω—Ñ–æ—Ä–º–∞—Ü–∏—é –æ —Ä–∞—Å–ø–∏—Å–∞–Ω–∏–∏."]
  | some advisors =>
    if advisors.isEmpty then
      Except.ok ["–ù–µ —É–¥–∞–ª–æ—Å—å –ø–æ–ª—É—á–∏—Ç—å –∏–Ω—Ñ–æ—Ä–º–∞—Ü–∏—é –æ —Ä–∞—Å–ø–∏—Å–∞–Ω–∏–∏."]
    else
      match advisors.find? (fun a => a.id == advisor_id) with
      | none => Except.ok ["–ù–∞—É—á–Ω—ã–π —Ä—É–∫–æ–≤–æ–¥–∏—Ç–µ–ª—å –Ω–µ –Ω–∞–π–¥–µ–Ω."]
      | some advisor =>
        match format_advisor_schedule advisor now with
        | Except.error e => Except.error e
        | Except.ok msg => Except.ok [msg]

/-- Embeds the search_field handler (source lines 345-358): prompt for the
query and set the expecting_search flag. -/
def search_field (s : Session) : List String × Session :=
  (["–í–≤–µ–¥–∏—Ç–µ —Ñ–∞–º–∏–ª–∏—é –Ω–∞—É—á–Ω–æ–≥–æ —Ä—É–∫–æ–≤–æ–¥–∏—Ç–µ–ª—è –∏–ª–∏ –Ω–∞–ø—Ä–∞–≤–ª–µ–Ω–∏–µ –∏—Å—Å–ª–µ–¥–æ–≤–∞–Ω–∏–π –¥–ª—è –ø–æ–∏—Å–∫–∞:"],
    { s with expectingSearch := true })

/-- Embeds the handle_search handler (source lines 361-412), parameterized by
the directory fetch outcome for the typed query.  Only the non-empty-results
path reaches the final statement that clears the expecting_search flag; the
failure and zero-result paths return early with the flag still set. -/
def handle_search (text : String) (fetched : Option (List Advisor))
    (s : Session) : List String × Session :=
  if s.expectingSearch = false then ([], s)
  else
    match fetched with
    | none => (["–ü—Ä–æ–∏–∑–æ—à–ª–∞ –æ—à–∏–±–∫–∞ –ø—Ä–∏ –ø–æ–∏—Å–∫–µ –Ω–∞—É—á–Ω—ã—Ö —Ä—É–∫–æ–≤–æ–¥–∏—Ç–µ–ª–µ–π."], s)
    | some [] =>
      (["–ü–æ –∑–∞–ø—Ä–æ—Å—É " ++ apos ++ text ++ apos ++ " –Ω–∏—á–µ–≥–æ –Ω–µ –Ω–∞–π–¥–µ–Ω–æ."], s)
    | some advisors =>
      ("üîç –†–µ–∑—É–ª—å—Ç–∞—Ç—ã –ø–æ–∏—Å–∫–∞:" :: advisors.map format_advisor_basic_info,
        { s with expectingSearch := false })

/-- Sample advisor whose calendar for 2025-04 contains a malformed busy_slots
key, used to exhibit the uncaught ValueError path. -/
def advBadCal : Advisor :=
  { id := "a1", last_name := "Ivanov", research_field := "Physics",
    email := "", phone := "", bachelors_limit := 1, masters_limit := 1, phd_limit := 1,
    office_hours := [("monday", "10-12")],
    calendar := [("2025-04",
      { available_days := some [7], busy_slots := some [("oops", ["10:00"])] })] }

/-- The month record of advBadCal's calendar. -/
def recBad : MonthRecord :=
  { available_days := some [7], busy_slots := some [("oops", ["10:00"])] }

/-- Sample advisor in the research field Alpha with an empty calendar. -/
def advAlpha : Advisor :=
  { id := "a2", last_name := "Petrov", research_field := "Alpha",
    email := "", phone := "", bachelors_limit := 0, masters_limit := 0, phd_limit := 0,
    office_hours := [], calendar := [] }

/-- Session whose token map came from a field-list display of two fields. -/
def sTwoTokens : Session :=
  { fieldTokens := some [("0", "Alpha"), ("1", "Beta")], expectingSearch := false }

/-- Session holding one field token, with no search pending. -/
def sFieldA : Session := { fieldTokens := some [("0", "Alpha")], expectingSearch := false }

/-- Session with a search pending and no token map. -/
def sSearch : Session := { fieldTokens := none, expectingSearch := true }

/-- Sample advisor with Monday office hours and a calendar for 2025-04 only,
used to exhibit the renderer's dependence on the clock month. -/
def advMon : Advisor :=
  { id := "a3", last_name := "Sidorov", research_field := "Math",
    email := "", phone := "", bachelors_limit := 2, masters_limit := 2, phd_limit := 2,
    office_hours := [("monday", "10-12")],
    calendar := [("2025-04", { available_days := some [7], busy_slots := none })] }

/-- Data of appended strings, for reasoning about message templates. -/
theorem strDataAppend (a b : String) : (a ++ b).data = a.data ++ b.data := by
  cases a; cases b; rfl

/-- The generic search-failure message differs from every instance of the
nothing-found message template (they diverge at their third character). -/
theorem searchMessagesDiffer (text : String) :
    "–ü—Ä–æ–∏–∑–æ—à–ª–∞ –æ—à–∏–±–∫–∞ –ø—Ä–∏ –ø–æ–∏—Å–∫–µ –Ω–∞—É—á–Ω—ã—Ö —Ä—É–∫–æ–≤–æ–¥–∏—Ç–µ–ª–µ–π." ≠
      "–ü–æ –∑–∞–ø—Ä–æ—Å—É " ++ apos ++ text ++ apos ++ " –Ω–∏—á–µ–≥–æ –Ω–µ –Ω–∞–π–¥–µ–Ω–æ." := by
  intro h
  have h2 : ("–ü—Ä–æ–∏–∑–æ—à–ª–∞ –æ—à–∏–±–∫–∞ –ø—Ä–∏ –ø–æ–∏—Å–∫–µ –Ω–∞—É—á–Ω—ã—Ö —Ä—É–∫–æ–≤–æ–¥–∏—Ç–µ–ª–µ–π." : String).data.take 3
      = ("–ü–æ –∑–∞–ø—Ä–æ—Å—É " ++ apos ++ text ++ apos ++ " –Ω–∏—á–µ–≥–æ –Ω–µ –Ω–∞–π–¥–µ–Ω–æ.").data.take 3 := by
    rw [h]
  simp only [strDataAppend, List.append_assoc] at h2
  have e1 : ("–ü—Ä–æ–∏–∑–æ—à–ª–∞ –æ—à–∏–±–∫–∞ –ø—Ä–∏ –ø–æ–∏—Å–∫–µ –Ω–∞—É—á–Ω—ã—Ö —Ä—É–∫–æ–≤–æ–¥–∏—Ç–µ–ª–µ–π." : String).data.take 3
      = ("–ü—" : String).data := rfl
  have e2 : (("–ü–æ –∑–∞–ø—Ä–æ—Å—É " : String).data
        ++ (apos.data ++ (text.data ++ (apos.data
          ++ (" –Ω–∏—á–µ–≥–æ –Ω–µ –Ω–∞–π–¥–µ–Ω–æ." : String).data)))).take 3
      = ("–ü–" : String).data := rfl
  rw [e1, e2] at h2
  exact absurd h2 (by decide)

/-- Lookup of a key other than the inserted one is unchanged by dict assignment. -/
theorem lookup_dictInsert_ne (m : List (String × String)) (k v q : String) (h : q ≠ k) :
    (dictInsert m k v).lookup q = m.lookup q := by
  have hfk : (q == k) = false := beq_eq_false_iff_ne.mpr h
  induction m with
  | nil => simp [dictInsert, List.lookup, hfk]
  | cons p rest ih =>
    obtain ⟨k0, v0⟩ := p
    by_cases hk : k0 = k
    · subst hk
      simp [dictInsert, List.lookup, hfk]
    · rw [dictInsert, if_neg hk]
      simp only [List.lookup]
      cases hq0 : q == k0 with
      | true => rfl
      | false => exact ih

/-- Lookup of a token outside the freshly assigned index range is unchanged by
the token-assignment loop. -/
theorem lookup_storeFields (fields : List String) (i : Nat) (m : List (String × String))
    (q : String) (h : ∀ j, i ≤ j → j < i + fields.length → q ≠ toString j) :
    (storeFields m i fields).lookup q = m.lookup q := by
  induction fields generalizing i m with
  | nil => rfl
  | cons f rest ih =>
    rw [storeFields]
    rw [ih (i + 1) (dictInsert m (toString i) f)
      (fun j h1 h2 => h j (by omega) (by simp at h2 ⊢; omega))]
    exact lookup_dictInsert_ne m (toString i) f q (h i (Nat.le_refl i) (by simp))

/-- Availability filtering succeeds whenever every candidate day forms a
parsable date. -/
theorem filter_ok_of_all_parse (days : List Nat) (year month : Nat) (cd : List String)
    (h : ∀ d ∈ days, ∃ w, get_weekday (dateString year month d) = Except.ok w) :
    ∃ l, filter_available_days days year month cd = Except.ok l := by
  induction days with
  | nil => exact ⟨[], rfl⟩
  | cons day rest ih =>
    obtain ⟨w, hw⟩ := h day (by simp)
    obtain ⟨l, hl⟩ := ih (fun d hd => h d (by simp [hd]))
    exact ⟨if w ∈ cd then day :: l else l, by simp only [filter_available_days, hw, hl]⟩

/-- Busy-slot filtering raises on some malformed key whenever the busy dict
contains one, and the raised error names a malformed key of the dict. -/
theorem busy_error_of_bad_key (busy : List (String × List String)) (cd : List String)
    (h : ∃ k ∈ busy.map Prod.fst, parseDate k = none) :
    ∃ e, filterBusySlots busy cd = Except.error e ∧
      e ∈ busy.map Prod.fst ∧ parseDate e = none := by
  induction busy with
  | nil => simp at h
  | cons p rest ih =>
    obtain ⟨date, slots⟩ := p
    by_cases hp : parseDate date = none
    · exact ⟨date, by simp only [filterBusySlots, get_weekday, hp], by simp, hp⟩
    · obtain ⟨k, hk, hkn⟩ := h
      simp only [List.map_cons, List.mem_cons] at hk
      have hk2 : k ∈ rest.map Prod.fst := by
        rcases hk with hk | hk
        · exact absurd (hk ▸ hkn) hp
        · exact hk
      obtain ⟨e, he, hm, hn⟩ := ih ⟨k, hk2, hkn⟩
      cases hv : parseDate date with
      | none => exact absurd hv hp
      | some v =>
        refine ⟨e, ?_, by simp [hm], hn⟩
        obtain ⟨y, m, d⟩ := v
        simp only [filterBusySlots, get_weekday, hv, he]

/-- Claim C1: every day output by the availability filter is one of the input
candidate days, and the weekday display name of its date matches some key of
the weekly office-hours map through WEEKDAYS.get(key.lower(), key); a day
whose weekday matches no office-hours key is never output. -/
theorem filter_available_days_sound (office_hours : List (String × String))
    (days : List Nat) (year month : Nat) (out : List Nat)
    (hout : filter_available_days days year month (get_consultation_days office_hours)
      = Except.ok out)
    (d : Nat) (hd : d ∈ out) :
    d ∈ days ∧ ∃ p ∈ office_hours,
      get_weekday (dateString year month d) = Except.ok (weekdaysGet (strLower p.1) p.1) := by
  induction days generalizing out with
  | nil =>
    simp only [filter_available_days] at hout
    cases hout
    simp at hd
  | cons day rest ih =>
    simp only [filter_available_days] at hout
    cases hw : get_weekday (dateString year month day) with
    | error e => rw [hw] at hout; exact absurd hout (by simp)
    | ok w =>
      rw [hw] at hout
      cases hrec : filter_available_days rest year month (get_consultation_days office_hours) with
      | error e => rw [hrec] at hout; exact absurd hout (by simp)
      | ok tail =>
        rw [hrec] at hout
        have hout2 : (if w ∈ get_consultation_days office_hours then day :: tail else tail)
            = out := by
          cases hout; rfl
        by_cases hin : w ∈ get_consultation_days office_hours
        · rw [if_pos hin] at hout2
          subst hout2
          rcases List.mem_cons.mp hd with rfl | hd2
          · refine ⟨List.mem_cons_self _ _, ?_⟩
            obtain ⟨p, hp, hfp⟩ := List.mem_map.mp hin
            exact ⟨p, hp, by rw [hw, hfp]⟩
          · obtain ⟨h1, h2⟩ := ih tail hrec hd2
            exact ⟨List.mem_cons_of_mem _ h1, h2⟩
        · rw [if_neg hin] at hout2
          subst hout2
          obtain ⟨h1, h2⟩ := ih _ hrec hd
          exact ⟨List.mem_cons_of_mem _ h1, h2⟩

/-- Witness for filter_available_days_sound: April 7, 2025 is a Monday, so with
Monday office hours the filter keeps day 7 and its weekday matches the key. -/
theorem filter_available_days_sound_witness :
    7 ∈ ([7] : List Nat) ∧ ∃ p ∈ [("monday", "10-12")],
      get_weekday (dateString 2025 4 7) = Except.ok (weekdaysGet (strLower p.1) p.1) :=
  filter_available_days_sound [("monday", "10-12")] [7] 2025 4 [7] (by decide) 7 (by decide)

/-- Claim C2: with office hours on Monday and Wednesday and candidate days
1..5 in April 2025 (whose first day is a Tuesday), only day 2 (Wednesday,
April 2) survives the availability filter. -/
theorem april2025_single_wednesday :
    filter_available_days [1, 2, 3, 4, 5] 2025 4
      (get_consultation_days [("monday", "10-12"), ("wednesday", "14-16")])
      = Except.ok [2] := by decide

/-- Claim C3: when the busy-slot filtering loop completes, its output is a
sub-mapping of the input busy_slots dict: every kept entry occurs in the input
with its slot list unchanged, and the kept date's weekday display name is
among the advisor's consultation days. -/
theorem busy_filter_submapping (office_hours : List (String × String))
    (busy : List (String × List String)) (out : List (String × List String))
    (hout : filterBusySlots busy (get_consultation_days office_hours) = Except.ok out)
    (date : String) (slots : List String) (hmem : (date, slots) ∈ out) :
    (date, slots) ∈ busy ∧ ∃ w, get_weekday date = Except.ok w ∧
      w ∈ get_consultation_days office_hours := by
  induction busy generalizing out with
  | nil =>
    simp only [filterBusySlots] at hout
    cases hout
    simp at hmem
  | cons p rest ih =>
    obtain ⟨date0, slots0⟩ := p
    simp only [filterBusySlots] at hout
    cases hw : get_weekday date0 with
    | error e => rw [hw] at hout; exact absurd hout (by simp)
    | ok w =>
      rw [hw] at hout
      cases hrec : filterBusySlots rest (get_consultation_days office_hours) with
      | error e => rw [hrec] at hout; exact absurd hout (by simp)
      | ok tail =>
        rw [hrec] at hout
        have hout2 : (if w ∈ get_consultation_days office_hours
            then (date0, slots0) :: tail else tail) = out := by
          cases hout; rfl
        by_cases hin : w ∈ get_consultation_days office_hours
        · rw [if_pos hin] at hout2
          subst hout2
          rcases List.mem_cons.mp hmem with heq | hmem2
          · cases heq
            exact ⟨List.mem_cons_self _ _, w, hw, hin⟩
          · obtain ⟨h1, h2⟩ := ih tail hrec hmem2
            exact ⟨List.mem_cons_of_mem _ h1, h2⟩
        · rw [if_neg hin] at hout2
          subst hout2
          obtain ⟨h1, h2⟩ := ih _ hrec hmem
          exact ⟨List.mem_cons_of_mem _ h1, h2⟩

/-- Witness for busy_filter_submapping: with Monday office hours the filter
keeps 2025-04-07 (a Monday) and drops 2025-04-08 (a Tuesday). -/
theorem busy_filter_submapping_witness :
    ("2025-04-07", ["10:00"]) ∈ [("2025-04-07", ["10:00"]), ("2025-04-08", ["11:00"])] ∧
    ∃ w, get_weekday "2025-04-07" = Except.ok w ∧
      w ∈ get_consultation_days [("monday", "10-12")] :=
  busy_filter_submapping [("monday", "10-12")]
    [("2025-04-07", ["10:00"]), ("2025-04-08", ["11:00"])]
    [("2025-04-07", ["10:00"])] (by decide) "2025-04-07" ["10:00"] (by decide)

/-- Claim C4, counterexample to the surfacing part: with a malformed busy_slots
key the show_schedule interaction does not complete with a user-facing
message; the ValueError raised inside format_calendar propagates uncaught out
of the handler (Except.error), naming the offending key, and no reply is sent. -/
theorem malformed_busy_key_uncaught :
    show_schedule "s_a1" (some [advBadCal]) (2025, 4) = Except.error "oops" := by
  decide

/-- Claim C4 as amended: for every month record whose candidate days all form
valid dates and whose busy_slots dict contains a malformed date key, the
derivation fails with an error naming a malformed busy_slots key — it never
silently skips the entry.  The error is an uncaught ValueError rather than a
handled DataError, so no user-facing message results (see the counterexample). -/
theorem malformed_busy_key_error (rec : MonthRecord) (adv : Advisor) (y m : Nat)
    (hdays : ∀ d ∈ rec.available_days.getD [],
      ∃ w, get_weekday (dateString y m d) = Except.ok w)
    (hbad : ∃ k ∈ (rec.busy_slots.getD []).map Prod.fst, parseDate k = none) :
    ∃ e, format_calendar [(monthKey y m, rec)] adv (y, m) = Except.error e ∧
      e ∈ (rec.busy_slots.getD []).map Prod.fst ∧ parseDate e = none := by
  obtain ⟨bs, hbs⟩ : ∃ bs, rec.busy_slots = some bs := by
    cases hrb : rec.busy_slots with
    | none =>
      obtain ⟨k, hk, _⟩ := hbad
      rw [hrb] at hk
      simp at hk
    | some bs => exact ⟨bs, rfl⟩
  obtain ⟨l, hl⟩ := filter_ok_of_all_parse (rec.available_days.getD []) y m
    (get_consultation_days adv.office_hours) hdays
  obtain ⟨e, he, hm, hn⟩ := busy_error_of_bad_key (rec.busy_slots.getD [])
    (get_consultation_days adv.office_hours) hbad
  refine ⟨e, ?_, hm, hn⟩
  have hlook : (([(monthKey y m, rec)]).lookup (monthKey y m)) = some rec := by
    simp [List.lookup]
  rw [hbs, Option.getD_some] at he
  simp only [format_calendar, List.isEmpty_cons, Bool.false_eq_true, if_false, hlook,
    Option.getD_some, hbs, Option.isNone_some, Bool.and_false, hl, he]

/-- Witness for malformed_busy_key_error at the concrete bad record. -/
theorem malformed_busy_key_error_witness :
    ∃ e, format_calendar [(monthKey 2025 4, recBad)] advBadCal (2025, 4) = Except.error e ∧
      e ∈ (recBad.busy_slots.getD []).map Prod.fst ∧ parseDate e = none :=
  malformed_busy_key_error recBad advBadCal 2025 4
    (by
      intro d hd
      simp [recBad] at hd
      subst hd
      exact ⟨WEEKDAY_NUMBERS 0, by decide⟩)
    ⟨"oops", by decide, by decide⟩

/-- Claim C5, counterexample: a free-text message processed with the
expecting_search flag set leaves the flag still set when the lookup fails and
when it returns zero results — the session is not back in Idle in those two
outcomes. -/
theorem search_flag_not_cleared :
    (handle_search "q" none sSearch).2.expectingSearch = true ∧
    (handle_search "q" (some []) sSearch).2.expectingSearch = true :=
  ⟨rfl, rfl⟩

/-- Claim C5 as amended: after handle_search runs with the expecting_search
flag set, the flag is cleared exactly when the lookup returned a non-empty
advisor list; on lookup failure and on zero results the handler returns early
and the session stays in the awaiting-search state. -/
theorem search_flag_cleared_iff_results (text : String) (fetched : Option (List Advisor))
    (s : Session) (h : s.expectingSearch = true) :
    ((handle_search text fetched s).2.expectingSearch = false ↔
      ∃ a rest, fetched = some (a :: rest)) := by
  cases fetched with
  | none => simp [handle_search, h]
  | some l =>
    cases l with
    | nil => simp [handle_search, h]
    | cons a rest =>
      refine iff_of_true ?_ ⟨a, rest, rfl⟩
      simp [handle_search, h]

/-- Witness for search_flag_cleared_iff_results at a one-result lookup. -/
theorem search_flag_cleared_iff_results_witness :
    sSearch.expectingSearch = true ∧
    ((handle_search "q" (some [advAlpha]) sSearch).2.expectingSearch = false ↔
      ∃ a rest, (some [advAlpha] : Option (List Advisor)) = some (a :: rest)) :=
  ⟨rfl, search_flag_cleared_iff_results "q" (some [advAlpha]) sSearch rfl⟩

/-- Claim C6, counterexample: in the field-selected advisor listing and in
show-schedule, a transport failure (None) and a valid empty result produce
identical replies, so the two outcomes are conflated there. -/
theorem lookup_failure_empty_conflated :
    (show_advisors_by_field "f_0" none sFieldA).1
        = (show_advisors_by_field "f_0" (some []) sFieldA).1 ∧
    (show_advisors_by_field "f_0" none sFieldA).1
        = ["–ù–∞—É—á–Ω—ã—Ö —Ä—É–∫–æ–≤–æ–¥–∏—Ç–µ–ª–µ–π –ø–æ –Ω–∞–ø—Ä–∞–≤–ª–µ–Ω–∏—é " ++ apos ++ "Alpha" ++ apos
          ++ " –Ω–µ –Ω–∞–π–¥–µ–Ω–æ."] ∧
    show_schedule "s_a2" none (2025, 4) = show_schedule "s_a2" (some []) (2025, 4) :=
  ⟨rfl, rfl, rfl⟩

/-- Claim C6 as amended: only the free-text search handler reacts differently
to a lookup failure and to zero results; the field-selected advisor listing
and the show-schedule handler produce identical replies for the two outcomes. -/
theorem only_search_distinguishes_outcomes (text : String) (s : Session)
    (h : s.expectingSearch = true) (tok : String) (s2 : Session) (d2 : String)
    (now : Nat × Nat) :
    (handle_search text none s).1 ≠ (handle_search text (some []) s).1 ∧
    show_advisors_by_field tok none s2 = show_advisors_by_field tok (some []) s2 ∧
    show_schedule d2 none now = show_schedule d2 (some []) now := by
  refine ⟨?_, ?_, rfl⟩
  · have h1 : (handle_search text none s).1
        = ["–ü—Ä–æ–∏–∑–æ—à–ª–∞ –æ—à–∏–±–∫–∞ –ø—Ä–∏ –ø–æ–∏—Å–∫–µ –Ω–∞—É—á–Ω—ã—Ö —Ä—É–∫–æ–≤–æ–¥–∏—Ç–µ–ª–µ–π."] := by
      simp [handle_search, h]
    have h2 : (handle_search text (some []) s).1
        = ["–ü–æ –∑–∞–ø—Ä–æ—Å—É " ++ apos ++ text ++ apos ++ " –Ω–∏—á–µ–≥–æ –Ω–µ –Ω–∞–π–¥–µ–Ω–æ."] := by
      simp [handle_search, h]
    rw [h1, h2]
    simpa using searchMessagesDiffer text
  · cases hres : resolveToken s2 ((splitChar (Char.ofNat 95) tok).getD 1 "") with
    | none => simp [show_advisors_by_field, hres]
    | some field => simp [show_advisors_by_field, hres]

/-- Witness for only_search_distinguishes_outcomes at concrete sessions. -/
theorem only_search_distinguishes_outcomes_witness :
    sSearch.expectingSearch = true ∧
    ((handle_search "q" none sSearch).1 ≠ (handle_search "q" (some []) sSearch).1 ∧
      show_advisors_by_field "f_0" none sFieldA
          = show_advisors_by_field "f_0" (some []) sFieldA ∧
      show_schedule "s_a2" none (2025, 4) = show_schedule "s_a2" (some []) (2025, 4)) :=
  ⟨rfl, only_search_distinguishes_outcomes "q" sSearch rfl "f_0" sFieldA "s_a2" (2025, 4)⟩

/-- Claim C7, counterexample: after the field list is redisplayed with the
single field Alpha, the token 1 assigned by an earlier two-field display still
resolves to Beta — the token map is merged into, not replaced. -/
theorem stale_token_still_resolves :
    get_unique_research_fields (some [advAlpha]) = ["Alpha"] ∧
    resolveToken ((list_advisors (some [advAlpha]) sTwoTokens).2) "1" = some "Beta" := by
  exact ⟨by decide, by decide⟩

/-- Claim C7 as amended: redisplaying the field list overwrites only the
tokens of the current field list inside the existing per-session dict; every
token outside the current index range keeps its old binding and still
resolves afterwards. -/
theorem stale_tokens_persist (s : Session) (fetched : Option (List Advisor))
    (tok field : String) (hres : resolveToken s tok = some field)
    (hnew : ∀ j < (get_unique_research_fields fetched).length, tok ≠ toString j) :
    resolveToken ((list_advisors fetched s).2) tok = some field := by
  obtain ⟨m0, hm0⟩ : ∃ m0, s.fieldTokens = some m0 := by
    cases hft : s.fieldTokens with
    | none => rw [resolveToken, hft] at hres; cases hres
    | some m0 => exact ⟨m0, rfl⟩
  have hlook : m0.lookup tok = some field := by
    rw [resolveToken, hm0] at hres; exact hres
  rw [list_advisors]
  cases hf : (get_unique_research_fields fetched).isEmpty with
  | true => simp only [hf, if_true]; exact hres
  | false =>
    simp only [hf, Bool.false_eq_true, if_false]
    rw [resolveToken]
    simp only [hm0, Option.getD_some]
    rw [lookup_storeFields _ 0 m0 tok (fun j h1 h2 => hnew j (by omega))]
    exact hlook

/-- Witness for stale_tokens_persist at the concrete stale-token scenario. -/
theorem stale_tokens_persist_witness :
    resolveToken sTwoTokens "1" = some "Beta" ∧
    (∀ j < (get_unique_research_fields (some [advAlpha])).length,
      ("1" : String) ≠ toString j) ∧
    resolveToken ((list_advisors (some [advAlpha]) sTwoTokens).2) "1" = some "Beta" :=
  ⟨by decide, by decide,
    stale_tokens_persist sTwoTokens (some [advAlpha]) "1" "Beta" (by decide) (by decide)⟩

/-- Claim C8, counterexample: format_calendar reads the current month from the
clock, so for fixed calendar data and advisor, two renders at different clock
months differ — the renderer is not a function of the given data alone. -/
theorem render_depends_on_clock :
    format_calendar advMon.calendar advMon (2025, 4)
      = Except.ok ("üìÖ –†–∞—Å–ø–∏—Å–∞–Ω–∏–µ –Ω–∞ –ê–ø—Ä–µ–ª—å 2025:\n\n–î–æ—Å—Ç—É–ø–Ω—ã–µ –¥–Ω–∏: 7\n\n–ó–∞–Ω—è—Ç—ã–µ —Å–ª–æ—Ç—ã:\n") ∧
    format_calendar advMon.calendar advMon (2025, 5)
      = Except.ok "–ù–µ—Ç –¥–∞–Ω–Ω—ã—Ö –æ —Ä–∞—Å–ø–∏—Å–∞–Ω–∏–∏ –Ω–∞ —Ç–µ–∫—É—â–∏–π –º–µ—Å—è—Ü" ∧
    format_calendar advMon.calendar advMon (2025, 4)
      ≠ format_calendar advMon.calendar advMon (2025, 5) := by
  refine ⟨rfl, rfl, by decide⟩

/-- Claim C8 as amended: the renderer is deterministic in its calendar data,
advisor record and the clock month it reads — renders at equal clock readings
are byte-identical. -/
theorem render_deterministic_given_clock (cal : List (String × MonthRecord))
    (adv : Advisor) (now1 now2 : Nat × Nat) (h : now1 = now2) :
    format_calendar cal adv now1 = format_calendar cal adv now2 := by
  rw [h]

/-- Witness for render_deterministic_given_clock at a concrete input. -/
theorem render_deterministic_given_clock_witness :
    ((2025, 4) : Nat × Nat) = (2025, 4) ∧
    format_calendar advMon.calendar advMon (2025, 4)
      = format_calendar advMon.calendar advMon (2025, 4) :=
  ⟨rfl, render_deterministic_given_clock advMon.calendar advMon (2025, 4) (2025, 4) rfl⟩

/-- Claim C9: for each of the seven canonical weekday keys, translating to the
display name through WEEKDAYS and back through WEEKDAYS_REVERSE returns the
original key. -/
theorem weekday_roundtrip :
    ∀ k ∈ WEEKDAYS.map Prod.fst,
      (WEEKDAYS.lookup k).bind (fun v => WEEKDAYS_REVERSE.lookup v) = some k := by
  decide

/-- Witness for weekday_roundtrip at the key monday. -/
theorem weekday_roundtrip_witness :
    "monday" ∈ WEEKDAYS.map Prod.fst ∧
    (WEEKDAYS.lookup "monday").bind (fun v => WEEKDAYS_REVERSE.lookup v) = some "monday" :=
  ⟨by decide, weekday_roundtrip "monday" (by decide)⟩

/-- Claim C10: get_unique_research_fields returns the empty list both when the
directory fetch fails (None) and when it returns an empty list, so the
list-fields handler sends the same unavailable message in both cases and
leaves the session unchanged (hence in Idle). -/
theorem list_fields_failure_empty_same (s : Session) :
    get_unique_research_fields none = [] ∧
    get_unique_research_fields (some []) = [] ∧
    list_advisors none s = list_advisors (some []) s ∧
    (list_advisors none s).2 = s :=
  ⟨rfl, rfl, rfl, rfl⟩
